import Mathlib

/-!
Verification development for the Polaris devbox provisioning script
(`setup.py`).  The script reads the root-principal credentials from the
Polaris container log, exchanges them for a bearer token, and issues a
fixed sequence of seven management-API calls, finally emitting a
verification notebook.

The pure core of every function is embedded below over `List Char` /
`String`; container/network effects are represented by passing the data
they would produce (log text, port map, HTTP response outcomes)
explicitly.  Unicode-only behaviours (`str.lower`, `\s`, `\d` on
non-ASCII text) are modelled for the ASCII range, which is the range the
claims quantify over.
-/

/-- Characters treated as whitespace by `str.strip()` and the regex
class `\s` (ASCII range). -/
def isPyWS (c : Char) : Bool :=
  c == ' ' || c == '\t' || c == '\n' || c == '\r' || c == '\x0b' || c == '\x0c'

/-- The literal searched for by `setup.py`: it is used both by the
substring test `"root principal credentials" in line.lower()` and as the
literal part of the extraction regex. -/
def phraseL : List Char := "root principal credentials".data

/-- Case-insensitive test that `pat` (given in lowercase) matches at the
head of `s`, mirroring how a lowercase literal matches under
`line.lower()` containment or `re.IGNORECASE`. -/
def ciMatchAt : List Char → List Char → Bool
  | [], _ => true
  | _ :: _, [] => false
  | p :: ps, c :: cs => (c.toLower == p) && ciMatchAt ps cs

/-- Model of `"root principal credentials" in line.lower()`: the phrase
occurs (case-insensitively) at some position of the line. -/
def containsPhraseCI : List Char → Bool
  | [] => false
  | c :: cs => ciMatchAt phraseL (c :: cs) || containsPhraseCI cs

/-- Model of `re.search(r"root principal credentials\s*:(.*?)(?:\n|$)",
line, re.IGNORECASE)` up to the colon: scan left to right for the first
position where the phrase, optional whitespace, and a colon match, and
return the text after that colon.  (The capture group is cut at the
first newline by `captureToNL` below.) -/
def credScan : List Char → Option (List Char)
  | [] => none
  | c :: cs =>
    if ciMatchAt phraseL (c :: cs) then
      match List.dropWhile isPyWS ((c :: cs).drop phraseL.length) with
      | ':' :: t => some t
      | _ => credScan cs
    else credScan cs

/-- The lazy capture `(.*?)(?:\n|$)`: everything up to the first newline
or the end of the string. -/
def captureToNL (l : List Char) : List Char := l.takeWhile (· != '\n')

/-- Leading-whitespace removal, the left half of `str.strip()`. -/
def stripLeft (l : List Char) : List Char := l.dropWhile isPyWS

/-- Trailing-whitespace removal, the right half of `str.strip()`. -/
def stripRight (l : List Char) : List Char := (l.reverse.dropWhile isPyWS).reverse

/-- Model of `str.strip()` (ASCII whitespace). -/
def pyStrip (l : List Char) : List Char := stripRight (stripLeft l)

/-- Model of `s.split(":", 1)`: at most one split, at the first colon;
a string without a colon yields a one-element list, exactly as in
Python. -/
def splitOnceColon (l : List Char) : List (List Char) :=
  if l.any (· == ':') then
    [l.takeWhile (· != ':'), (l.dropWhile (· != ':')).tail]
  else [l]

/-- Model of `logs.split("\n")`: split at every newline, keeping empty
pieces, with `[""]` for the empty string. -/
def splitLines : List Char → List (List Char)
  | [] => [[]]
  | c :: cs =>
    if c == '\n' then [] :: splitLines cs
    else
      match splitLines cs with
      | [] => [[c]]
      | l :: ls => (c :: l) :: ls

/-! ### The timestamp parser of `extract_timestamp`

`extract_timestamp` runs `datetime.strptime(line[:26] + "Z",
"%Y-%m-%dT%H:%M:%S.%fZ")` and falls back to `datetime.min` on
`ValueError`.  CPython compiles that format to the regex
`(\d\d\d\d)-(1[0-2]|0[1-9]|[1-9])-(3[01]|[12]\d|0[1-9]|[1-9])T`
`(2[0-3]|[0-1]\d|\d):([0-5]\d|\d):(6[0-1]|[0-5]\d|\d)\.([0-9]{1,6})Z`
(matched case-insensitively, whole string), pads the fraction to six
digits, and then the `datetime` constructor re-validates the fields
(day against the month length, seconds at most 59, year at least 1).
The functions below reproduce the alternatives in their regex order,
with regex backtracking realised by `tryEach`.  A parsed datetime is
encoded as a single `Nat` in a mixed radix that is strictly monotone in
the lexicographic field order used by `datetime` comparison. -/

/-- Numeric value of an ASCII digit. -/
def digitVal (c : Char) : Nat := c.toNat - 48

/-- Value of a string of ASCII digits. -/
def digitsVal (ds : List Char) : Nat := ds.foldl (fun a c => 10 * a + digitVal c) 0

/-- Candidate matches for `%Y`, the regex `\d\d\d\d`. -/
def candsYear : List Char → List (Nat × List Char)
  | a :: b :: c :: d :: r =>
    if a.isDigit && b.isDigit && c.isDigit && d.isDigit then
      [(digitsVal [a, b, c, d], r)]
    else []
  | _ => []

/-- Candidate matches for `%m`, the regex `1[0-2]|0[1-9]|[1-9]`, in
alternative order. -/
def candsMonth (l : List Char) : List (Nat × List Char) :=
  (match l with
    | '1' :: b :: r => if '0' ≤ b && b ≤ '2' then [(10 + digitVal b, r)] else []
    | _ => []) ++
  (match l with
    | '0' :: b :: r => if '1' ≤ b && b ≤ '9' then [(digitVal b, r)] else []
    | _ => []) ++
  (match l with
    | a :: r => if '1' ≤ a && a ≤ '9' then [(digitVal a, r)] else []
    | _ => [])

/-- Candidate matches for `%d`, the regex
`3[01]|[12]\d|0[1-9]|[1-9]`. -/
def candsDay (l : List Char) : List (Nat × List Char) :=
  (match l with
    | '3' :: b :: r => if b == '0' || b == '1' then [(30 + digitVal b, r)] else []
    | _ => []) ++
  (match l with
    | a :: b :: r =>
      if (a == '1' || a == '2') && b.isDigit then [(10 * digitVal a + digitVal b, r)] else []
    | _ => []) ++
  (match l with
    | '0' :: b :: r => if '1' ≤ b && b ≤ '9' then [(digitVal b, r)] else []
    | _ => []) ++
  (match l with
    | a :: r => if '1' ≤ a && a ≤ '9' then [(digitVal a, r)] else []
    | _ => [])

/-- Candidate matches for `%H`, the regex `2[0-3]|[0-1]\d|\d`. -/
def candsHour (l : List Char) : List (Nat × List Char) :=
  (match l with
    | '2' :: b :: r => if '0' ≤ b && b ≤ '3' then [(20 + digitVal b, r)] else []
    | _ => []) ++
  (match l with
    | a :: b :: r =>
      if (a == '0' || a == '1') && b.isDigit then [(10 * digitVal a + digitVal b, r)] else []
    | _ => []) ++
  (match l with
    | a :: r => if a.isDigit then [(digitVal a, r)] else []
    | _ => [])

/-- Candidate matches for `%M`, the regex `[0-5]\d|\d`. -/
def candsMinute (l : List Char) : List (Nat × List Char) :=
  (match l with
    | a :: b :: r =>
      if '0' ≤ a && a ≤ '5' && b.isDigit then [(10 * digitVal a + digitVal b, r)] else []
    | _ => []) ++
  (match l with
    | a :: r => if a.isDigit then [(digitVal a, r)] else []
    | _ => [])

/-- Candidate matches for `%S`, the regex `6[0-1]|[0-5]\d|\d`
(leap seconds are matched by the regex and rejected later by the
`datetime` constructor). -/
def candsSecond (l : List Char) : List (Nat × List Char) :=
  (match l with
    | '6' :: b :: r => if b == '0' || b == '1' then [(60 + digitVal b, r)] else []
    | _ => []) ++
  (match l with
    | a :: b :: r =>
      if '0' ≤ a && a ≤ '5' && b.isDigit then [(10 * digitVal a + digitVal b, r)] else []
    | _ => []) ++
  (match l with
    | a :: r => if a.isDigit then [(digitVal a, r)] else []
    | _ => [])

/-- Candidate matches for `%f`, the regex `[0-9]{1,6}` (greedy, so the
longest candidate first), already padded to microseconds as CPython
does. -/
def candsFrac (l : List Char) : List (Nat × List Char) :=
  [6, 5, 4, 3, 2, 1].filterMap fun k =>
    if (l.take k).length == k && (l.take k).all Char.isDigit then
      some (digitsVal (l.take k) * 10 ^ (6 - k), l.drop k)
    else none

/-- Regex backtracking: try each candidate in order, running the
continuation on its remainder, and keep the first full success. -/
def tryEach : List (Nat × List Char) → (Nat → List Char → Option Nat) → Option Nat
  | [], _ => none
  | (v, r) :: rest, k =>
    match k v r with
    | some x => some x
    | none => tryEach rest k

/-- A literal character of the format string, matched case-insensitively
as CPython compiles strptime patterns with `re.IGNORECASE`. -/
def litCI (c : Char) : List Char → Option (List Char)
  | x :: r => if x.toLower == c.toLower then some r else none
  | [] => none

/-- Gregorian leap-year rule used by `datetime`. -/
def isLeapYear (y : Nat) : Bool := y % 4 == 0 && (y % 100 != 0 || y % 400 == 0)

/-- Length of a month, as validated by the `datetime` constructor. -/
def daysInMonth (y m : Nat) : Nat :=
  if m == 2 then (if isLeapYear y then 29 else 28)
  else if m == 4 || m == 6 || m == 9 || m == 11 then 30
  else 31

/-- Order-preserving encoding of a datetime as a single `Nat`
(mixed radix over the bounded fields year, month, day, hour, minute,
second, microsecond). -/
def encodeDatetime (y mo d h mi s f : Nat) : Nat :=
  (((((y * 13 + mo) * 32 + d) * 24 + h) * 60 + mi) * 60 + s) * 1000000 + f

/-- The `datetime` constructor: validates the field ranges (this is the
step that rejects year 0, day counts beyond the month length, and leap
seconds) and encodes the result. -/
def mkDatetime (y mo d h mi s f : Nat) : Option Nat :=
  if 1 ≤ y && y ≤ 9999 && 1 ≤ mo && mo ≤ 12 && 1 ≤ d && d ≤ daysInMonth y mo
      && h ≤ 23 && mi ≤ 59 && s ≤ 59 && f ≤ 999999 then
    some (encodeDatetime y mo d h mi s f)
  else none

/-- Model of `datetime.strptime(s, "%Y-%m-%dT%H:%M:%S.%fZ")`: `none`
exactly when strptime raises `ValueError` (no regex match, unconverted
trailing data, or constructor rejection). -/
def parse_strptime (l : List Char) : Option Nat :=
  tryEach (candsYear l) fun y r0 =>
  (litCI '-' r0).bind fun r1 =>
  tryEach (candsMonth r1) fun mo r2 =>
  (litCI '-' r2).bind fun r3 =>
  tryEach (candsDay r3) fun d r4 =>
  (litCI 'T' r4).bind fun r5 =>
  tryEach (candsHour r5) fun h r6 =>
  (litCI ':' r6).bind fun r7 =>
  tryEach (candsMinute r7) fun mi r8 =>
  (litCI ':' r8).bind fun r9 =>
  tryEach (candsSecond r9) fun s r10 =>
  (litCI '.' r10).bind fun r11 =>
  tryEach (candsFrac r11) fun f r12 =>
  (litCI 'Z' r12).bind fun r13 =>
  match r13 with
  | [] => mkDatetime y mo d h mi s f
  | _ => none

/-- Encoding of `datetime.min`, that is `datetime(1, 1, 1)`. -/
def datetimeMin : Nat := encodeDatetime 1 1 1 0 0 0 0

/-- Model of `extract_timestamp`: parse the first 26 characters of the
line with a `"Z"` appended; on failure return `datetime.min` rather than
raising. -/
def extract_timestamp (line : String) : Nat :=
  match parse_strptime (line.data.take 26 ++ ['Z']) with
  | some t => t
  | none => datetimeMin

/-! ### The credential pipeline of `get_root_cred_log_lines` and
`extract_root_principal_credentials`

The container lookup is an external effect; the pipeline below takes the
decoded log text the container would return.  `sorted(key=extract_timestamp,
reverse=True)` is a stable descending sort by the parsed timestamp, which
`List.mergeSort` with the reflexive comparison below implements. -/

/-- Model of `logs.split("\n")` lifted to `String`. -/
def log_lines (logs : String) : List String := (splitLines logs.data).map String.mk

/-- The selection stage: keep lines whose lowercase text contains the
phrase. -/
def line_with_root_creds (logs : String) : List String :=
  (log_lines logs).filter fun l => containsPhraseCI l.data

/-- Model of `get_root_cred_log_lines` for a found container: matching
lines, stably sorted by parsed timestamp, most recent first. -/
def get_root_cred_log_lines (logs : String) : List String :=
  (line_with_root_creds logs).mergeSort fun a b =>
    decide (extract_timestamp b ≤ extract_timestamp a)

/-- Model of the pair-extraction body of
`extract_root_principal_credentials` applied to the selected line: the
contains test, the regex search, then `strip` and `split(":", 1)`.
`none` models Python returning `None`; note that `tuple(....split(":", 1))`
has two elements only when the captured text has a colon, so the result
list can be a singleton, again exactly as in Python. -/
def extract_creds_from_line (line : String) : Option (List String) :=
  if containsPhraseCI line.data then
    match credScan line.data with
    | some t => some ((splitOnceColon (pyStrip (captureToNL t))).map String.mk)
    | none => none
  else none

/-- Model of `extract_root_principal_credentials` given the container
log text.  The outer `none` is the uncaught `IndexError` of `r_lines[0]`
when no line matched; otherwise the returned value. -/
def extract_root_principal_credentials (logs : String) :
    Option (Option (List String)) :=
  match get_root_cred_log_lines logs with
  | [] => none
  | cred_line :: _ => some (extract_creds_from_line cred_line)

/-! ### Port resolver -/

/-- One entry of a `NetworkSettings.Ports` mapping list. -/
structure PortBinding where
  HostIp : String
  HostPort : String
deriving DecidableEq

/-- Model of `ports.get(key, [])` on the (association-list) port
dictionary. -/
def portsGet (ports : List (String × List PortBinding)) (key : String) :
    List PortBinding :=
  match ports.find? (fun kv => kv.1 == key) with
  | some kv => kv.2
  | none => []

/-- Model of `get_api_port` for a found container with the given port
dictionary: format the key as `"<port>/tcp"`, take the first mapping
entry, and return its `HostPort`; `none` when the port is not
published. -/
def get_api_port (ports : List (String × List PortBinding))
    (container_port : Nat := 8181) : Option String :=
  match portsGet ports (toString container_port ++ "/tcp") with
  | [] => none
  | m :: _ => some m.HostPort

/-! ### Auth client -/

/-- The request `get_auth_token` posts to the OAuth token endpoint. -/
structure AuthRequest where
  url : String
  authorization : String
  accept : String
  contentType : String
  formData : List (String × String)
deriving DecidableEq

/-- Model of the request construction inside `get_auth_token`: the
`Authorization` header is the raw f-string
`Bearer <client_id>:<client_secret>` with no encoding applied, and the
form carries the grant parameters in source order. -/
def build_auth_token_request (client_id client_secret polaris_api_host
    polaris_api_port : String) : AuthRequest where
  url := "http://" ++ polaris_api_host ++ ":" ++ polaris_api_port
    ++ "/api/catalog/v1/oauth/tokens"
  authorization := "Bearer " ++ client_id ++ ":" ++ client_secret
  accept := "application/json"
  contentType := "application/x-www-form-urlencoded"
  formData :=
    [("grant_type", "client_credentials"),
     ("client_id", client_id),
     ("client_secret", client_secret),
     ("scope", "PRINCIPAL_ROLE:ALL")]

/-- Model of the response handling of `get_auth_token`.  `accessToken`
is the `access_token` field of the JSON body when the body is JSON and
has that field.  The outer `none` is an uncaught exception
(`response.json()` or the key lookup failing); `some v` means the
function returns `v`, where the inner `none` is the implicit `None` of
the fall-through when the status is not 200.  The function issues the
single request and never retries, which the model reflects by consuming
exactly one response. -/
def get_auth_token_result (status : Nat) (accessToken : Option String) :
    Option (Option String) :=
  if status == 200 then
    match accessToken with
    | some tok => some (some tok)
    | none => none
  else some none

/-! ### Provisioning sequence

Each step builds a JSON payload, sends one request with the bearer
headers, and catches `requests.exceptions.RequestException`, so the
relevant data of a step is the request it builds plus what its handler
does with the outcome of the HTTP call.  The entity names default to
the hardcoded fallbacks of the `os.getenv` calls (the model is the
run with no environment overrides, which is also what the spec
documents as the defaults). -/

/-- JSON payloads as structured values (field order as in the source
dictionaries). -/
inductive Json where
  | jstr : String → Json
  | jbool : Bool → Json
  | jobj : List (String × Json) → Json
  | jarr : List Json → Json

/-- Model of `build_headers` with its default content types. -/
def build_headers (auth_token : String) : List (String × String) :=
  [("Authorization", "Bearer " ++ auth_token),
   ("accept", "application/json"),
   ("content-type", "application/json")]

/-- Fallback of `os.getenv("POLARIS_CATALOG_NAME", ...)`. -/
def POLARIS_CATALOG_NAME : String := "my_catalog"

/-- Fallback of `os.getenv("POLARIS_DEFAULT_BASE_LOCATION", ...)`. -/
def POLARIS_DEFAULT_BASE_LOCATION : String := "file:///data/polaris"

/-- Fallback of `os.getenv("POLARIS_PRINCIPAL_NAME", ...)`. -/
def POLARIS_PRINCIPAL_NAME : String := "polarisuser"

/-- Fallback of `os.getenv("POLARIS_PRINCIPAL_ROLE_NAME", ...)`. -/
def POLARIS_PRINCIPAL_ROLE_NAME : String := "polarisuser_role"

/-- Fallback of `os.getenv("POLARIS_CATALOG_ROLE_NAME", ...)`. -/
def POLARIS_CATALOG_ROLE_NAME : String := "my_catalog_role"

/-- One outbound management-API request. -/
structure Request where
  method : String
  url : String
  headers : List (String × String)
  payload : Json

/-- Model of the `allowed_locations` handling at the top of
`create_catalog`: `if not allowed_locations:
allowed_locations.append(default_base_location)`.  In Python the
default `[]` is evaluated once at function-definition time and
`.append` mutates that list object in place, so calls that use the
default all share one object; the model threads the contents of that
shared object explicitly: the result is both the list used in the
payload and the new contents of the shared object. -/
def create_catalog_allowed (allowed_locations : List String)
    (default_base_location : String) : List String :=
  if allowed_locations.isEmpty then allowed_locations ++ [default_base_location]
  else allowed_locations

/-- The request built by `create_catalog` (step 1): POST `/catalogs`. -/
def create_catalog_request (tok uri catalog_name default_base_location
    storage_type : String) (allowed_locations : List String) : Request where
  method := "POST"
  url := uri ++ "/catalogs"
  headers := build_headers tok
  payload := .jobj
    [("catalog", .jobj
      [("name", .jstr catalog_name),
       ("type", .jstr "INTERNAL"),
       ("readOnly", .jbool false),
       ("properties", .jobj
         [("default-base-location", .jstr default_base_location)]),
       ("storageConfigInfo", .jobj
         [("storageType", .jstr storage_type),
          ("allowedLocations", .jarr (allowed_locations.map .jstr))])])]

/-- The request built by `create_principal` (step 2): POST
`/principals`. -/
def create_principal_request (tok uri principal_name ptype : String) :
    Request where
  method := "POST"
  url := uri ++ "/principals"
  headers := build_headers tok
  payload := .jobj [("name", .jstr principal_name), ("type", .jstr ptype)]

/-- The request built by `create_principal_role` (step 3): POST
`/principal-roles`. -/
def create_principal_role_request (tok uri role_name : String) : Request where
  method := "POST"
  url := uri ++ "/principal-roles"
  headers := build_headers tok
  payload := .jobj [("name", .jstr role_name)]

/-- The request built by `assign_role_to_principal` (step 4): PUT
`/principals/<principal>/principal-roles`. -/
def assign_role_to_principal_request (tok uri role_name principal_name :
    String) : Request where
  method := "PUT"
  url := uri ++ "/principals/" ++ principal_name ++ "/principal-roles"
  headers := build_headers tok
  payload := .jobj [("principalRole", .jobj [("name", .jstr role_name)])]

/-- The request built by `create_catalog_role` (step 5): POST
`/catalogs/<catalog>/catalog-roles`. -/
def create_catalog_role_request (tok uri catalog_name role_name : String) :
    Request where
  method := "POST"
  url := uri ++ "/catalogs/" ++ catalog_name ++ "/catalog-roles"
  headers := build_headers tok
  payload := .jobj [("catalogRole", .jobj [("name", .jstr role_name)])]

/-- The request built by `assign_catalog_role_to_principal_role`
(step 6): PUT `/principal-roles/<principalRole>/catalog-roles/<catalog>`. -/
def assign_catalog_role_request (tok uri principal_role catalog_role
    catalog_name : String) : Request where
  method := "PUT"
  url := uri ++ "/principal-roles/" ++ principal_role ++ "/catalog-roles/"
    ++ catalog_name
  headers := build_headers tok
  payload := .jobj [("catalogRole", .jobj [("name", .jstr catalog_role)])]

/-- The request built by `grants_to_catalog_role_on_catalog` (step 7):
PUT `/catalogs/<catalog>/catalog-roles/<catalogRole>/grants`. -/
def grants_request (tok uri catalog_role catalog_name privilege gtype :
    String) : Request where
  method := "PUT"
  url := uri ++ "/catalogs/" ++ catalog_name ++ "/catalog-roles/"
    ++ catalog_role ++ "/grants"
  headers := build_headers tok
  payload := .jobj
    [("grant", .jobj [("type", .jstr gtype), ("privilege", .jstr privilege)])]

/-- Outcome of one HTTP call made by a step: either the call itself
raised a `RequestException` (network error, so the local `response`
variable is never bound), or a response arrived with the given status,
whether it has a body, whether that body is JSON of the shape the
success path reads, and the credentials the body carries (meaningful
for the `create_principal` response). -/
inductive Outcome where
  | netErr : Outcome
  | resp (status : Nat) (hasContent : Bool) (jsonOk : Bool)
      (creds : String × String) : Outcome

/-- Whether a step function returns normally or lets an exception
escape. -/
inductive StepExit where
  | ok : StepExit
  | exn : StepExit
deriving DecidableEq

/-- Statuses for which `response.raise_for_status()` raises. -/
def http_error (status : Nat) : Bool := 400 ≤ status && status < 600

/-- Exit behaviour shared by steps 3, 4, 5, 6 and 7: on a raised
`RequestException` the handler evaluates `response.json()`; a network
error leaves `response` unbound so the handler raises `NameError`, and
a non-JSON error body makes `response.json()` raise inside the handler;
only an error response with a JSON body is logged and survives to a
normal return. -/
def simple_step_exit : Outcome → StepExit
  | .netErr => .exn
  | .resp status _ jsonOk _ =>
    if http_error status then (if jsonOk then .ok else .exn) else .ok

/-- Exit behaviour of `create_catalog` (step 1): as `simple_step_exit`,
except that on a 201 with a body the success path itself calls
`response.json()`, whose failure on a non-JSON body is caught and then
re-raised by the handler. -/
def create_catalog_exit : Outcome → StepExit
  | .netErr => .exn
  | .resp status hasContent jsonOk _ =>
    if http_error status then (if jsonOk then .ok else .exn)
    else if status == 201 && hasContent && !jsonOk then .exn
    else .ok

/-- Result of `create_principal` (step 2): `none` when an exception
escapes, `some v` when the function returns, where `v` is the
credential pair on a 201 with a JSON body and Python `None` (the
explicit `return None` or the post-handler fall-through) otherwise. -/
def create_principal_result : Outcome → Option (Option (String × String))
  | .netErr => none
  | .resp status hasContent jsonOk creds =>
    if http_error status then (if jsonOk then some none else none)
    else if status == 201 then
      (if hasContent then (if jsonOk then some (some creds) else none)
       else some none)
    else some none

/-- The HTTP outcomes of the seven provisioning calls of one run. -/
structure StepsOutcomes where
  o1 : Outcome
  o2 : Outcome
  o3 : Outcome
  o4 : Outcome
  o5 : Outcome
  o6 : Outcome
  o7 : Outcome

/-- Model of the seven-step body of `run_steps`, from the point where
the root bearer token `tok` and the management URI `uri` have been
computed.  The first component lists the requests actually issued, in
order; the second is `none` when an exception escapes `run_steps` and
`some r` when `run_steps` returns `r`.  Two source facts shape the
control flow: the result of `create_principal` is unpacked into two
variables, so a `None` result raises `TypeError` inside `run_steps`;
and the function body has no `return` statement, so a completed run
returns Python `None`. -/
def run_steps_trace (tok uri : String) (o : StepsOutcomes) :
    List Request × Option (Option (String × String)) :=
  let r1 := create_catalog_request tok uri POLARIS_CATALOG_NAME
    POLARIS_DEFAULT_BASE_LOCATION "FILE"
    (create_catalog_allowed [] POLARIS_DEFAULT_BASE_LOCATION)
  match create_catalog_exit o.o1 with
  | .exn => ([r1], none)
  | .ok =>
    let r2 := create_principal_request tok uri POLARIS_PRINCIPAL_NAME "user"
    match create_principal_result o.o2 with
    | none => ([r1, r2], none)
    | some none => ([r1, r2], none)
    | some (some _creds) =>
      let r3 := create_principal_role_request tok uri
        POLARIS_PRINCIPAL_ROLE_NAME
      match simple_step_exit o.o3 with
      | .exn => ([r1, r2, r3], none)
      | .ok =>
        let r4 := assign_role_to_principal_request tok uri
          POLARIS_PRINCIPAL_ROLE_NAME POLARIS_PRINCIPAL_NAME
        match simple_step_exit o.o4 with
        | .exn => ([r1, r2, r3, r4], none)
        | .ok =>
          let r5 := create_catalog_role_request tok uri POLARIS_CATALOG_NAME
            POLARIS_CATALOG_ROLE_NAME
          match simple_step_exit o.o5 with
          | .exn => ([r1, r2, r3, r4, r5], none)
          | .ok =>
            let r6 := assign_catalog_role_request tok uri
              POLARIS_PRINCIPAL_ROLE_NAME POLARIS_CATALOG_ROLE_NAME
              POLARIS_CATALOG_NAME
            match simple_step_exit o.o6 with
            | .exn => ([r1, r2, r3, r4, r5, r6], none)
            | .ok =>
              let r7 := grants_request tok uri POLARIS_CATALOG_ROLE_NAME
                POLARIS_CATALOG_NAME "CATALOG_MANAGE_CONTENT" "catalog"
              match simple_step_exit o.o7 with
              | .exn => ([r1, r2, r3, r4, r5, r6, r7], none)
              | .ok => ([r1, r2, r3, r4, r5, r6, r7], some none)

/-- Model of the `__main__` block after `run_steps`: the returned value
is unpacked into two variables and passed to
`generate_setup_notebook_cells`.  The result is the credential pair the
notebook emitter receives, or `none` when the process crashes first
(an exception out of `run_steps`, or the `TypeError` from unpacking a
non-pair). -/
def main_trace (tok uri : String) (o : StepsOutcomes) :
    Option (String × String) :=
  match (run_steps_trace tok uri o).2 with
  | some (some creds) => some creds
  | _ => none

/-! ### Helper lemmas -/

/-- Dropping while a predicate holds walks through an append up to the
first element known to fail the predicate. -/
theorem dropWhile_append_cons (p : Char → Bool) (xs ys : List Char) (y : Char)
    (hy : p y = false) :
    List.dropWhile p (xs ++ y :: ys) = List.dropWhile p xs ++ y :: ys := by
  induction xs with
  | nil => simp [List.dropWhile_cons, hy]
  | cons x xs ih =>
    simp only [List.cons_append, List.dropWhile_cons]
    split <;> simp_all

/-- Dropping while a predicate that holds everywhere empties the
list. -/
theorem dropWhile_all_nil (p : Char → Bool) (xs : List Char)
    (h : ∀ x ∈ xs, p x = true) : List.dropWhile p xs = [] := by
  induction xs with
  | nil => rfl
  | cons x xs ih =>
    simp only [List.dropWhile_cons, h x (by simp)]
    exact ih fun a ha => h a (by simp [ha])

/-- Taking while a predicate that holds on all of `xs` but fails at `y`
returns exactly `xs`. -/
theorem takeWhile_append_cons (p : Char → Bool) (xs ys : List Char) (y : Char)
    (hxs : ∀ x ∈ xs, p x = true) (hy : p y = false) :
    List.takeWhile p (xs ++ y :: ys) = xs := by
  induction xs with
  | nil => simp [List.takeWhile_cons, hy]
  | cons x xs ih =>
    simp only [List.cons_append, List.takeWhile_cons, hxs x (by simp)]
    simp [ih fun a ha => hxs a (by simp [ha])]

/-- A lowercase pattern matches case-insensitively at the head of any
extension of itself. -/
theorem ciMatchAt_append_self (p r : List Char) (h : ∀ c ∈ p, c.toLower = c) :
    ciMatchAt p (p ++ r) = true := by
  induction p with
  | nil => rfl
  | cons c cs ih =>
    simp only [List.cons_append, ciMatchAt, Bool.and_eq_true, beq_iff_eq]
    exact ⟨h c (by simp), ih fun a ha => h a (by simp [ha])⟩

/-- Evaluation rule for `credScan` when the phrase, optional whitespace
and a colon match at the start of the line. -/
theorem credScan_head (l t : List Char) (hne : l ≠ [])
    (hp : ciMatchAt phraseL l = true)
    (hd : List.dropWhile isPyWS (l.drop phraseL.length) = ':' :: t) :
    credScan l = some t := by
  cases l with
  | nil => exact absurd rfl hne
  | cons c cs => simp only [credScan, hp, if_true, hd]

/-- A successful regex search implies the substring test that guards it
in `extract_root_principal_credentials` also succeeds. -/
theorem contains_of_credScan (l t : List Char) (h : credScan l = some t) :
    containsPhraseCI l = true := by
  induction l with
  | nil => simp [credScan] at h
  | cons c cs ih =>
    simp only [credScan] at h
    simp only [containsPhraseCI, Bool.or_eq_true]
    by_cases hp : ciMatchAt phraseL (c :: cs) = true
    · exact Or.inl hp
    · rw [if_neg hp] at h
      exact Or.inr (ih h)

/-- Decomposition of the data of the exact-pattern line used by the
pair-extraction claims. -/
theorem line_data_decomp (A B : String) :
    ("root principal credentials: " ++ A ++ ":" ++ B).data
      = phraseL ++ ':' :: ' ' :: (A.data ++ ':' :: B.data) := by
  simp [String.data_append, phraseL, List.append_assoc]

/-- The comparison passed to the sort in `get_root_cred_log_lines`:
line `a` precedes line `b` when its parsed timestamp is at least that
of `b` (descending order, ties keeping their original order, as
`sorted(..., reverse=True)` does). -/
theorem ts_desc_trans (a b c : String) :
    decide (extract_timestamp b ≤ extract_timestamp a) →
    decide (extract_timestamp c ≤ extract_timestamp b) →
    decide (extract_timestamp c ≤ extract_timestamp a) := by
  simp only [decide_eq_true_eq]
  omega

/-- Totality of the descending-timestamp comparison. -/
theorem ts_desc_total (a b : String) :
    decide (extract_timestamp b ≤ extract_timestamp a)
      || decide (extract_timestamp a ≤ extract_timestamp b) := by
  simp only [Bool.or_eq_true, decide_eq_true_eq]
  omega

/-! ### Shared concrete run data -/

/-- A fully successful HTTP outcome: 201 Created with a JSON body
(carrying the generated credentials where relevant). -/
def okOutcome : Outcome := .resp 201 true true ("generated-id", "generated-secret")

/-- Outcomes of a run in which all seven provisioning requests
succeed. -/
def allOkOutcomes : StepsOutcomes :=
  ⟨okOutcome, okOutcome, okOutcome, okOutcome, okOutcome, okOutcome, okOutcome⟩

/-- Outcomes of a run in which step 2 (create principal) fails with an
ordinary 409 Conflict carrying a JSON error body, every other call
succeeding. -/
def principalConflictOutcomes : StepsOutcomes :=
  ⟨okOutcome, .resp 409 true true ("", ""), okOutcome, okOutcome, okOutcome,
   okOutcome, okOutcome⟩

/-! ### Claim theorems -/

/-- C1.  The claim says a run whose provisioning steps complete writes
the verification notebook with the new principal credentials.  The code
cannot do this: `run_steps` has no `return` statement, so even a fully
successful run returns Python `None`, and the `__main__` unpacking of
that `None` raises `TypeError` before `generate_setup_notebook_cells`
is ever called.  This theorem evaluates the model at a fully successful
run: all seven steps complete and `run_steps` returns `None`, yet the
notebook emitter receives nothing. -/
theorem run_steps_missing_return_no_notebook :
    (run_steps_trace "root-token" "http://localhost:8181/api/management/v1"
      allOkOutcomes).1.length = 7 ∧
    (run_steps_trace "root-token" "http://localhost:8181/api/management/v1"
      allOkOutcomes).2 = some none ∧
    main_trace "root-token" "http://localhost:8181/api/management/v1"
      allOkOutcomes = none :=
  ⟨rfl, rfl, rfl⟩

/-- C2.  The claim says no request-level failure of any step aborts the
sequence before all seven steps have been attempted.  This fails at
step 2: `create_principal` itself handles a 409 gracefully and returns
`None` (third conjunct), but `run_steps` unpacks that `None` into two
variables, raising `TypeError`, so only two of the seven requests are
ever issued (first two conjuncts).  Moreover a network error makes the
`except` handlers themselves raise, because they evaluate
`response.json()` while `response` is unbound (last two conjuncts). -/
theorem principal_failure_aborts_sequence :
    (run_steps_trace "root-token" "http://localhost:8181/api/management/v1"
      principalConflictOutcomes).1.length = 2 ∧
    (run_steps_trace "root-token" "http://localhost:8181/api/management/v1"
      principalConflictOutcomes).2 = none ∧
    create_principal_result (.resp 409 true true ("", "")) = some none ∧
    simple_step_exit .netErr = .exn ∧
    create_catalog_exit .netErr = .exn :=
  ⟨rfl, rfl, rfl, rfl, rfl⟩

/-- C3.  The token request built by `get_auth_token` carries the
non-standard header value `Bearer <client_id>:<client_secret>` — the
raw credentials concatenated with a single colon and no encoding — and
the four documented form fields. -/
theorem auth_token_request_header_and_form (client_id client_secret host
    port : String) :
    (build_auth_token_request client_id client_secret host port).authorization
      = "Bearer " ++ client_id ++ ":" ++ client_secret ∧
    (build_auth_token_request client_id client_secret host port).formData
      = [("grant_type", "client_credentials"),
         ("client_id", client_id),
         ("client_secret", client_secret),
         ("scope", "PRINCIPAL_ROLE:ALL")] :=
  ⟨rfl, rfl⟩

/-- C5.  When the first 26 characters of a line (with the appended
`"Z"`) do not parse under `%Y-%m-%dT%H:%M:%S.%fZ`, `extract_timestamp`
returns `datetime.min` instead of propagating the `ValueError`; being a
total function, the model raises nothing on any input. -/
theorem extract_timestamp_malformed_min (line : String)
    (h : parse_strptime (line.data.take 26 ++ ['Z']) = none) :
    extract_timestamp line = datetimeMin := by
  unfold extract_timestamp
  rw [h]

/-- Witness for C5 at the malformed line `"hello"`. -/
theorem extract_timestamp_malformed_min_witness :
    parse_strptime ("hello".data.take 26 ++ ['Z']) = none ∧
    extract_timestamp "hello" = datetimeMin :=
  ⟨by decide, extract_timestamp_malformed_min "hello" (by decide)⟩

/-- C8.  `get_auth_token` returns the `access_token` field of the JSON
body on HTTP 200, and on any other status falls through and returns
`None` — no exception, and (by construction of the model, which
consumes exactly one response) no retry. -/
theorem auth_token_response_handling (status : Nat) (tok : String)
    (accessToken : Option String) (h : status ≠ 200) :
    get_auth_token_result 200 (some tok) = some (some tok) ∧
    get_auth_token_result status accessToken = some none := by
  refine ⟨rfl, ?_⟩
  simp [get_auth_token_result, h]

/-- Witness for C8 at status 404. -/
theorem auth_token_response_handling_witness :
    (404 : Nat) ≠ 200 ∧
    (get_auth_token_result 200 (some "tok") = some (some "tok") ∧
     get_auth_token_result 404 none = some none) :=
  ⟨by decide, auth_token_response_handling 404 "tok" none (by decide)⟩

/-- C10.  With an empty `allowed_locations` (in particular the shared
default list object), `create_catalog` appends `default_base_location`
to that very object before building the payload; a later call using the
default therefore sees a non-empty list and uses the first call's
element — even with a different `default_base_location` of its own —
so its payload carries `[d1]`, not `[d2]`. -/
theorem create_catalog_default_list_mutation (d1 d2 cname tok uri : String) :
    create_catalog_allowed [] d1 = [d1] ∧
    create_catalog_allowed (create_catalog_allowed [] d1) d2 = [d1] ∧
    create_catalog_request tok uri cname d2 "FILE"
        (create_catalog_allowed (create_catalog_allowed [] d1) d2)
      = create_catalog_request tok uri cname d2 "FILE" [d1] :=
  ⟨rfl, rfl, rfl⟩

/-- The port map of the C7 scenario: container port `8181/tcp`
published at host port `32000`. -/
def portsC7 : List (String × List PortBinding) :=
  [("8181/tcp", [⟨"0.0.0.0", "32000"⟩])]

/-- The container log of the C7 scenario. -/
def logsC7 : String :=
  "2024-01-01T00:00:00.000000000Z some root principal credentials: abc:xyz"

/-- The management URI `run_steps` builds from host `localhost` and the
resolved host port. -/
def uriC7 : String :=
  "http://localhost:" ++ ((get_api_port portsC7 8181).getD "")
    ++ "/api/management/v1"

/-- C7.  End-to-end scenario: with `8181/tcp` published at `32000` and
the single credential log line, the pipeline resolves host port
`"32000"`, extracts the pair `("abc", "xyz")`, and a successful
provisioning run issues exactly seven management-API requests with the
documented methods and paths, in the documented order. -/
theorem end_to_end_scenario :
    get_api_port portsC7 8181 = some "32000" ∧
    extract_root_principal_credentials logsC7 = some (some ["abc", "xyz"]) ∧
    (run_steps_trace "root-token" uriC7 allOkOutcomes).1.map
        (fun r => (r.method, r.url)) =
      [("POST", "http://localhost:32000/api/management/v1/catalogs"),
       ("POST", "http://localhost:32000/api/management/v1/principals"),
       ("POST", "http://localhost:32000/api/management/v1/principal-roles"),
       ("PUT",
        "http://localhost:32000/api/management/v1/principals/polarisuser/principal-roles"),
       ("POST",
        "http://localhost:32000/api/management/v1/catalogs/my_catalog/catalog-roles"),
       ("PUT",
        "http://localhost:32000/api/management/v1/principal-roles/polarisuser_role/catalog-roles/my_catalog"),
       ("PUT",
        "http://localhost:32000/api/management/v1/catalogs/my_catalog/catalog-roles/my_catalog_role/grants")] := by
  refine ⟨by decide, ?_, by decide⟩
  have hkept : line_with_root_creds logsC7 = [logsC7] := by decide
  have hsorted : get_root_cred_log_lines logsC7 = [logsC7] := by
    unfold get_root_cred_log_lines
    rw [hkept]
    exact List.mergeSort_singleton logsC7
  unfold extract_root_principal_credentials
  rw [hsorted]
  exact congrArg some (by decide)

/-- C6.  If a line is among the selected credential lines of a log and
its parsed timestamp is strictly greater than that of every other
selected line (the distinct-valid-timestamps setting of the claim),
then the selection-and-sort pipeline puts it first. -/
theorem most_recent_matching_line_first (logs line : String)
    (hmem : line ∈ line_with_root_creds logs)
    (hmax : ∀ l ∈ line_with_root_creds logs, l ≠ line →
      extract_timestamp l < extract_timestamp line) :
    (get_root_cred_log_lines logs).head? = some line := by
  unfold get_root_cred_log_lines
  have hperm := List.mergeSort_perm (line_with_root_creds logs)
    (fun a b => decide (extract_timestamp b ≤ extract_timestamp a))
  have hsorted := List.sorted_mergeSort
    ts_desc_trans ts_desc_total (line_with_root_creds logs)
  cases hms : List.mergeSort (line_with_root_creds logs)
      (fun a b => decide (extract_timestamp b ≤ extract_timestamp a)) with
  | nil =>
    exfalso
    have hmem2 : line ∈ List.mergeSort (line_with_root_creds logs)
        (fun a b => decide (extract_timestamp b ≤ extract_timestamp a)) :=
      hperm.mem_iff.mpr hmem
    rw [hms] at hmem2
    exact absurd hmem2 (List.not_mem_nil line)
  | cons h t =>
    rw [List.head?_cons]
    by_cases heq : h = line
    · rw [heq]
    · exfalso
      have hh : h ∈ line_with_root_creds logs :=
        hperm.mem_iff.mp (hms ▸ List.mem_cons_self h t)
      have hlt := hmax h hh heq
      have hlmem : line ∈ h :: t := by
        rw [← hms]
        exact hperm.mem_iff.mpr hmem
      have hline_t : line ∈ t := by
        cases List.mem_cons.mp hlmem with
        | inl e => exact absurd e.symm heq
        | inr ht => exact ht
      rw [hms] at hsorted
      have hle := (List.pairwise_cons.mp hsorted).1 line hline_t
      simp only [decide_eq_true_eq] at hle
      omega

/-- The log of the C6 witness: two credential lines with distinct valid
timestamps around a non-matching line. -/
def logsW6 : String :=
  "2024-01-01T00:00:00.000000000Z Realm root principal credentials: old:creds\nsome other line\n2024-01-02T00:00:00.000000000Z Realm root principal credentials: new:creds"

/-- The most recent matching line of `logsW6`. -/
def lineW6 : String :=
  "2024-01-02T00:00:00.000000000Z Realm root principal credentials: new:creds"

/-- Witness for C6 on a concrete three-line log. -/
theorem most_recent_matching_line_first_witness :
    (get_root_cred_log_lines logsW6).head? = some lineW6 :=
  most_recent_matching_line_first logsW6 lineW6 (by decide) (by decide)

/-- C4 counterexample.  Instantiating the claim at `A := "abc "` and
`B := "xyz"` — a line exactly of the form
`root principal credentials: <A>:<B>` — extraction returns
`("abc ", "xyz")`, not the whitespace-trimmed pair `("abc", "xyz")`:
the code strips the captured suffix as a whole before splitting, so the
whitespace next to the separating colon survives. -/
theorem extract_creds_inner_whitespace_cex :
    extract_creds_from_line ("root principal credentials: " ++ "abc " ++ ":" ++ "xyz")
      = some ["abc ", "xyz"] ∧
    (some ["abc ", "xyz"] : Option (List String))
      ≠ some [String.mk (pyStrip "abc ".data), String.mk (pyStrip "xyz".data)] := by
  constructor <;> decide

/-- C4 amended.  For a line exactly of the form
`root principal credentials: <A>:<B>` (with `A` free of colons and
neither component containing a newline), extraction returns the pair
whose first component is `A` with only its leading whitespace removed
and whose second is `B` with only its trailing whitespace removed —
`strip()` is applied to the captured suffix as a whole before the
single split, so whitespace at the separating colon is preserved. -/
theorem extract_creds_exact_pattern (A B : String)
    (hA1 : ':' ∉ A.data) (hA2 : '\n' ∉ A.data) (hB : '\n' ∉ B.data) :
    extract_creds_from_line ("root principal credentials: " ++ A ++ ":" ++ B)
      = some [String.mk (stripLeft A.data), String.mk (stripRight B.data)] := by
  have hdata := line_data_decomp A B
  have hscan : credScan ("root principal credentials: " ++ A ++ ":" ++ B).data
      = some (' ' :: (A.data ++ ':' :: B.data)) := by
    rw [hdata]
    apply credScan_head
    · intro hcontra
      exact absurd (List.append_eq_nil.mp hcontra).1 (by decide)
    · exact ciMatchAt_append_self phraseL _ (by decide)
    · rw [List.drop_left]
      rfl
  have hcontains := contains_of_credScan _ _ hscan
  have hcap : captureToNL (' ' :: (A.data ++ ':' :: B.data))
      = ' ' :: (A.data ++ ':' :: B.data) := by
    unfold captureToNL
    apply List.takeWhile_eq_self_iff.mpr
    intro a ha
    simp only [bne_iff_ne, ne_eq]
    rcases List.mem_cons.mp ha with h | h
    · rw [h]; decide
    · rcases List.mem_append.mp h with h | h
      · intro he; rw [he] at h; exact hA2 h
      · rcases List.mem_cons.mp h with h | h
        · rw [h]; decide
        · intro he; rw [he] at h; exact hB h
  have hstrip : pyStrip (' ' :: (A.data ++ ':' :: B.data))
      = stripLeft A.data ++ ':' :: stripRight B.data := by
    simp only [pyStrip, stripLeft, stripRight]
    rw [show List.dropWhile isPyWS (' ' :: (A.data ++ ':' :: B.data))
        = List.dropWhile isPyWS (A.data ++ ':' :: B.data) from rfl]
    rw [dropWhile_append_cons isPyWS A.data B.data ':' rfl]
    rw [List.reverse_append, List.reverse_cons, List.append_assoc,
      List.singleton_append]
    rw [dropWhile_append_cons isPyWS B.data.reverse _ ':' rfl]
    rw [List.reverse_append, List.reverse_cons, List.reverse_reverse,
      List.append_assoc, List.singleton_append]
  have hAcolon : ∀ x ∈ stripLeft A.data, (x != ':') = true := by
    intro x hx
    have hxA : x ∈ A.data := (List.dropWhile_sublist isPyWS).subset hx
    simp only [bne_iff_ne, ne_eq]
    intro he
    rw [he] at hxA
    exact hA1 hxA
  have hsplit : splitOnceColon (stripLeft A.data ++ ':' :: stripRight B.data)
      = [stripLeft A.data, stripRight B.data] := by
    have hany : (stripLeft A.data ++ ':' :: stripRight B.data).any
        (fun x => x == ':') = true := by
      simp only [List.any_eq_true]
      exact ⟨':', List.mem_append_right _ (List.mem_cons_self ':' _), rfl⟩
    unfold splitOnceColon
    rw [if_pos hany]
    rw [takeWhile_append_cons _ _ _ ':' hAcolon rfl]
    rw [dropWhile_append_cons (fun x => x != ':') (stripLeft A.data) _ ':' rfl]
    rw [dropWhile_all_nil _ _ hAcolon]
    rfl
  unfold extract_creds_from_line
  rw [if_pos hcontains, hscan]
  show some (List.map String.mk (splitOnceColon (pyStrip
    (captureToNL (' ' :: (A.data ++ ':' :: B.data)))))) = _
  rw [hcap, hstrip, hsplit]
  rfl

/-- Witness for C4 at `A := "abc "` and `B := " xyz"`: the leading
space of the second component and the trailing space of the first are
kept, being adjacent to the separating colon. -/
theorem extract_creds_exact_pattern_witness :
    extract_creds_from_line ("root principal credentials: " ++ "abc " ++ ":" ++ " xyz")
      = some ["abc ", " xyz"] := by
  have h := extract_creds_exact_pattern "abc " " xyz" (by decide) (by decide)
    (by decide)
  exact h.trans (by decide)

/-- C9 counterexample.  The line `root principal credentials: abconly`
contains the phrase and a colon, but the captured suffix has no second
colon: the claim predicts an absent result, yet the code returns the
one-element tuple `("abconly",)` — `split(":", 1)` on colon-free text
gives one part and `tuple` happily wraps it. -/
theorem extract_creds_one_part_cex :
    extract_creds_from_line "root principal credentials: abconly"
      = some ["abconly"] ∧
    extract_creds_from_line "root principal credentials: abconly" ≠ none := by
  constructor <;> decide

/-- C9 amended.  When the regex finds no colon after the phrase,
extraction returns Python `None`; when the regex matches but the
stripped captured suffix has no further colon, extraction returns a
one-element tuple (the stripped suffix) rather than an absent value or
a two-element pair. -/
theorem extract_creds_malformed_suffix (line : String) (t : List Char) :
    (credScan line.data = none → extract_creds_from_line line = none) ∧
    (credScan line.data = some t →
      (pyStrip (captureToNL t)).any (fun x => x == ':') = false →
      extract_creds_from_line line
        = some [String.mk (pyStrip (captureToNL t))]) := by
  constructor
  · intro h
    unfold extract_creds_from_line
    by_cases hc : containsPhraseCI line.data = true
    · rw [if_pos hc, h]
    · rw [if_neg hc]
  · intro hscan hnc
    have hc := contains_of_credScan _ _ hscan
    unfold extract_creds_from_line
    rw [if_pos hc, hscan]
    show some (List.map String.mk (splitOnceColon (pyStrip (captureToNL t)))) = _
    unfold splitOnceColon
    rw [if_neg]
    · rfl
    · rw [hnc]
      exact Bool.false_ne_true

/-- Witness for C9 at the line whose captured suffix has no second
colon: the result is the one-element value, not an absent one. -/
theorem extract_creds_malformed_suffix_witness :
    extract_creds_from_line "root principal credentials: abconly"
      = some ["abconly"] := by
  have h := (extract_creds_malformed_suffix "root principal credentials: abconly"
    " abconly".data).2 (by decide) (by decide)
  exact h.trans (by decide)
